import Mathlib

/-!
Shallow embedding of the document-chat backend (a single-document RAG
service).  The definitions below are translated from the Python sources:

* `app/core/session.py`           — `SessionState`, `SessionManager`
* `app/services/document_service.py` — `_estimate_page_count`, `_validate_file`,
  `_cleanup_old_session`, `process_upload`
* `app/services/query_service.py` — `QueryService.query_stream`,
  `_retrieve_context`, `_chunks_to_sources`
* `app/api/routes/query.py`       — `event_generator` of `query_document`
* `app/config.py`                 — the `Settings` fields the above read
* `app/models/schemas.py`         — `QueryRequest`, `Source`
* `app/core/exceptions.py`        — the exception messages surfaced to clients

External collaborators (vector store, LLM, document processors) are passed
in as explicit data: a retrieval outcome, a list of generated tokens with an
optional mid-stream failure, a document-processing outcome, and a flag for
whether collection creation succeeds.  This matches the spec's treatment of
them as black boxes with fixed interfaces.
-/

namespace DocumentChat

/-! ## Session registry (`app/core/session.py`) -/

/-- `SessionState` from `app/core/session.py`.  Timestamps are modelled as
abstract `Nat` ticks; none of the verified properties depend on them. -/
structure SessionState where
  is_active : Bool
  filename : Option String
  page_count : Nat
  chunk_count : Nat
  created_at : Option Nat
  collection_name : Option String
deriving DecidableEq, Repr

/-- The default `SessionState()` (all pydantic defaults). -/
def SessionState.default : SessionState :=
  { is_active := false, filename := none, page_count := 0, chunk_count := 0
  , created_at := none, collection_name := none }

/-- `SessionManager.create_session`: replaces the state with a fresh active
one.  The generated `session_{uuid}` collection name and the wall-clock
timestamp are passed as parameters `fresh` and `now`.  Returns the new state
together with the collection name returned to the caller. -/
def create_session (_st : SessionState) (filename : String)
    (page_count chunk_count : Nat) (fresh : String) (now : Nat) :
    SessionState × String :=
  ({ is_active := true, filename := some filename, page_count := page_count
   , chunk_count := chunk_count, created_at := some now
   , collection_name := some fresh }, fresh)

/-- `SessionManager.clear_session`: resets the state to default and returns
the previously stored collection name (or `none`). -/
def clear_session (st : SessionState) : SessionState × Option String :=
  (SessionState.default, st.collection_name)

/-- An operation on the session registry.  `create` carries the arguments
of `create_session` plus the freshly generated name and timestamp; `read`
stands for any of the read-only accessors (`get_state`, `is_active`,
`collection_name`), which do not mutate state. -/
inductive SessionOp where
  | create (filename : String) (page_count chunk_count : Nat)
      (fresh : String) (now : Nat)
  | clear
  | read
deriving Repr

/-- One registry transition. -/
def sessionStep (st : SessionState) : SessionOp → SessionState
  | .create filename page_count chunk_count fresh now =>
      (create_session st filename page_count chunk_count fresh now).1
  | .clear => (clear_session st).1
  | .read => st

/-- Run a sequence of registry operations from the initial (empty) state. -/
def sessionRun (ops : List SessionOp) : SessionState :=
  ops.foldl sessionStep SessionState.default

/-! ## Page-count estimation (`document_service._estimate_page_count`) -/

/-- The slice of a LangChain `Document` chunk that `_estimate_page_count`
inspects: the optional `"page"` entry of its metadata dict (`none` when the
chunk carries no page metadata, mirroring the `"page" in chunk.metadata`
guard). -/
structure Chunk where
  metadata_page : Option Nat
deriving DecidableEq, Repr

/-- The `max_page` accumulation loop of `_estimate_page_count`. -/
def maxPage (chunks : List Chunk) : Nat :=
  chunks.foldl
    (fun m c => match c.metadata_page with
      | some p => max m p
      | none => m) 0

/-- `DocumentService._estimate_page_count`, translated line by line:
empty list gives 1; otherwise the maximum `"page"` metadata value is used
when positive; otherwise `max(1, len(chunks) // 3)`. -/
def estimate_page_count (chunks : List Chunk) : Nat :=
  if chunks = [] then 1
  else
    let max_page := maxPage chunks
    if max_page > 0 then max_page
    else max 1 (chunks.length / 3)

/-! ## Settings and schemas (`app/config.py`, `app/models/schemas.py`) -/

/-- The fields of `Settings` read by the document and query services. -/
structure Settings where
  max_page_limit : Nat
  top_k_chunks : Nat
  allowed_extensions : List String
  max_file_size_mb : Nat
deriving Repr

/-- `QueryRequest` from `app/models/schemas.py`: a question plus an optional
per-call `top_k` (the schema constrains it to `1 ≤ top_k ≤ 10`). -/
structure QueryRequest where
  query : String
  top_k : Option Nat
deriving Repr

/-- The pydantic field constraints on `QueryRequest`
(`min_length=1` on `query`, `ge=1, le=10` on `top_k`). -/
def QueryRequest.valid (r : QueryRequest) : Prop :=
  r.query ≠ "" ∧ (∀ t, r.top_k = some t → 1 ≤ t ∧ t ≤ 10)

/-- `RetrievedChunk` from `app/services/vector_store_service.py` as consumed
by the query service.  Relevance scores are modelled as rationals. -/
structure RetrievedChunk where
  content : String
  page_number : Nat
  chunk_index : Nat
  relevance_score : ℚ
  source : String
deriving DecidableEq, Repr

/-- `Source` from `app/models/schemas.py`. -/
structure Source where
  content : String
  page_number : Nat
  chunk_index : Nat
  relevance_score : ℚ
  filename : String
deriving DecidableEq, Repr

/-! ## Query service (`app/services/query_service.py`) -/

/-- `StreamingQueryResponse`: at most one of the four fields is set by
`query_stream` for each yielded item. -/
structure StreamingQueryResponse where
  token : Option String := none
  sources : Option (List Source) := none
  is_done : Bool := false
  error : Option String := none
deriving DecidableEq, Repr

/-- The dependencies of `QueryService` the verified claims exercise: the
`top_k` it was constructed with (`self._top_k`). -/
structure QueryService where
  _top_k : Nat
deriving Repr

/-- `get_query_service`: builds the service with `settings.top_k_chunks` as
its `top_k` (the route's dependency injection never passes anything else). -/
def get_query_service (settings : Settings) : QueryService :=
  { _top_k := settings.top_k_chunks }

/-- `QueryService._chunks_to_sources`. -/
def chunks_to_sources (chunks : List RetrievedChunk) : List Source :=
  chunks.map fun c =>
    { content := c.content, page_number := c.page_number
    , chunk_index := c.chunk_index, relevance_score := c.relevance_score
    , filename := c.source }

/-- How the LLM collaborator's streaming call ends after yielding its
tokens: normally, with an `LLMError`, or with some other exception. -/
inductive GenOutcome where
  | completes
  | llmError
  | otherError
deriving DecidableEq, Repr

/-- The exceptions `query_stream` can raise out of the generator
(`NoActiveSessionError` or `QueryError`), with the messages built in
`app/core/exceptions.py` / `query_service.py`. -/
inductive QueryException where
  | noActiveSession
  | queryError (message : String)
deriving DecidableEq, Repr

/-- `str(e)` for the exceptions above, as the route serialises them. -/
def QueryException.message : QueryException → String
  | .noActiveSession => "No document loaded. Please upload a document first."
  | .queryError m => m

/-- `QueryService.query_stream`, translated step by step.  A Python async
generator both yields values and may terminate with an exception; it is
modelled as the list of yielded `StreamingQueryResponse`s paired with the
optional terminating exception.

Collaborators: `retrieve k` is the vector store's `query(..., top_k=k)`
outcome (`Except.error` models any exception raised there); `genTokens` are
the fragments the LLM streams before `genOutcome` ends the stream.

Mirrored control flow, in order:
* `if not self._session_manager.is_active: raise NoActiveSessionError()`;
* `collection_name = ...; if not collection_name: raise NoActiveSessionError()`
  (Python truthiness: `None` and the empty string both fail the check);
* retrieval failure is wrapped into
  `QueryError("Failed to retrieve relevant context from vector store")`;
* each streamed token is yielded as `StreamingQueryResponse(token=token)`;
  an `LLMError` mid-stream is wrapped into
  `QueryError("Failed to generate response from LLM")`; any other exception
  is re-raised and caught by the outermost handler as
  `QueryError("An unexpected error occurred during query")`;
* on success the sources response and then the done response are yielded. -/
def query_stream (svc : QueryService) (session : SessionState)
    (retrieve : Nat → Except String (List RetrievedChunk))
    (genTokens : List String) (genOutcome : GenOutcome) :
    List StreamingQueryResponse × Option QueryException :=
  if session.is_active = false then
    ([], some .noActiveSession)
  else
    match session.collection_name with
    | none => ([], some .noActiveSession)
    | some collection_name =>
      if collection_name = "" then
        ([], some .noActiveSession)
      else
        match retrieve svc._top_k with
        | .error _ =>
            ([], some (.queryError
              "Failed to retrieve relevant context from vector store"))
        | .ok chunks =>
            let tokenResponses :=
              genTokens.map fun t => ({ token := some t } : StreamingQueryResponse)
            match genOutcome with
            | .llmError =>
                (tokenResponses,
                 some (.queryError "Failed to generate response from LLM"))
            | .otherError =>
                (tokenResponses,
                 some (.queryError "An unexpected error occurred during query"))
            | .completes =>
                (tokenResponses ++
                  [({ sources := some (chunks_to_sources chunks) } :
                      StreamingQueryResponse),
                   ({ is_done := true } : StreamingQueryResponse)],
                 none)

/-! ## SSE route (`app/api/routes/query.py`, `event_generator`) -/

/-- A server-sent event as emitted by `event_generator` (the `event` field
of each yielded dict, together with its payload). -/
inductive SSEEvent where
  | token (text : String)
  | sources (sources : List Source)
  | done
  | error (message : String)
deriving DecidableEq, Repr

/-- The body of `event_generator`'s `async for` loop: each response may
produce a token, sources and done event (independent `if`s), but a set
`error` field short-circuits with a single error event and `return`.
Returns the emitted events and whether the loop `return`ed early. -/
def event_generator_loop :
    List StreamingQueryResponse → List SSEEvent × Bool
  | [] => ([], false)
  | r :: rs =>
    match r.error with
    | some e => ([SSEEvent.error e], true)
    | none =>
        let here :=
          (match r.token with
            | some t => [SSEEvent.token t]
            | none => []) ++
          (match r.sources with
            | some s => [SSEEvent.sources s]
            | none => []) ++
          (if r.is_done then [SSEEvent.done] else [])
        let rest := event_generator_loop rs
        (here ++ rest.1, rest.2)

/-- `event_generator`: iterates the query stream; an exception escaping the
stream (after all previously yielded responses were consumed) is caught by
one of the `except` arms and turned into a single error event. -/
def event_generator
    (stream : List StreamingQueryResponse × Option QueryException) :
    List SSEEvent :=
  let body := event_generator_loop stream.1
  if body.2 then body.1
  else
    match stream.2 with
    | none => body.1
    | some e => body.1 ++ [SSEEvent.error e.message]

/-- The full `POST /query` route behaviour on one request: builds the
query service from settings via `get_query_service` and streams
`query_stream(request.query)` — note the route passes only the question. -/
def query_document (settings : Settings) (_req : QueryRequest)
    (session : SessionState)
    (retrieve : Nat → Except String (List RetrievedChunk))
    (genTokens : List String) (genOutcome : GenOutcome) : List SSEEvent :=
  event_generator
    (query_stream (get_query_service settings) session retrieve genTokens
      genOutcome)

/-- The `top_k` value the retrieval stage hands to the vector store for one
`POST /query` request: `_retrieve_context` passes `self._top_k`, and the
route's `event_generator` never forwards `request.top_k`. -/
def retrieval_top_k (settings : Settings) (_req : QueryRequest) : Nat :=
  (get_query_service settings)._top_k

/-! ## Document service (`app/services/document_service.py`) -/

/-- The part of a FastAPI `UploadFile` the document service reads:
`filename` and `size` are both optional, and the service tests them with
Python truthiness (`if file.filename:` / `if file.size:`). -/
structure UploadFile where
  filename : Option String
  size : Option Nat
deriving Repr

/-- Split a character list at every occurrence of a separator (the
structural core of Python's `str.split`). -/
def splitOnChar (sep : Char) : List Char → List (List Char)
  | [] => [[]]
  | c :: cs =>
    let rest := splitOnChar sep cs
    if c = sep then [] :: rest
    else
      match rest with
      | [] => [[c]]
      | r :: rs => (c :: r) :: rs

/-- `Path(name).suffix.lstrip(".").lower()` as used by `_validate_file` and
`DocumentProcessor`: the extension of the final path component — the text
after its last dot, provided that dot is neither the component's first nor
last character — lower-cased, or `""` when there is none. -/
def file_extension (filename : String) : String :=
  let name := (splitOnChar '/' filename.toList).getLastD []
  let parts := splitOnChar '.' name
  let ext := parts.getLastD []
  if 2 ≤ parts.length ∧ ext ≠ [] ∧ ext.length + 1 < name.length then
    String.mk (ext.map Char.toLower)
  else ""

/-- The classified upload failures of `app/core/exceptions.py` raised by
`process_upload` (`UnsupportedFileTypeError`, `FileTooLargeError`,
`PageLimitExceededError`, `ProcessingError`).  `fileTooLarge` carries the
size in bytes rather than the float megabyte value. -/
inductive UploadError where
  | unsupportedFileType (extension : String) (allowed : List String)
  | fileTooLarge (size_bytes : Nat) (max_size_mb : Nat)
  | pageLimitExceeded (page_count : Nat) (max_pages : Nat)
  | processingError (message : String)
deriving DecidableEq, Repr

/-- The extension block of `DocumentService._validate_file`: it runs only
under `if file.filename:`, so a missing or empty filename skips it. -/
def extension_check (settings : Settings) (file : UploadFile) :
    Option UploadError :=
  match file.filename with
  | none => none
  | some f =>
    if f = "" then none
    else
      let extension := file_extension f
      if settings.allowed_extensions.contains extension then none
      else some (.unsupportedFileType extension settings.allowed_extensions)

/-- The size block of `DocumentService._validate_file`: it runs only under
`if file.size:`, so a missing or zero size skips it.  The float comparison
`file.size / (1024*1024) > max_file_size_mb` is rendered exactly as
`size > max_file_size_mb * 1048576`. -/
def size_check (settings : Settings) (file : UploadFile) :
    Option UploadError :=
  match file.size with
  | none => none
  | some size =>
    if size ≠ 0 ∧ settings.max_file_size_mb * 1048576 < size then
      some (.fileTooLarge size settings.max_file_size_mb)
    else none

/-- `DocumentService._validate_file`, returning the raised exception or
`none`: the extension check raises first, then the size check. -/
def validate_file (settings : Settings) (file : UploadFile) :
    Option UploadError :=
  match extension_check settings file with
  | some e => some e
  | none => size_check settings file

/-- How the external document-processing collaborator
(`DocumentProcessor.process_document`) can fail: a `ValueError` for an
unsupported extension, or a `DocumentProcessingError` with a message. -/
inductive ProcFailure where
  | valueError
  | processingFailure (message : String)
deriving DecidableEq, Repr

/-- `ProcessedDocument` from `app/core/document_processor.py`, restricted
to the fields `process_upload` reads (each chunk reduced to the metadata
slice `_estimate_page_count` inspects). -/
structure ProcessedDoc where
  filename : String
  file_type : String
  total_chunks : Nat
  chunks : List Chunk
deriving Repr

/-- `DocumentUploadResponse` from `app/models/schemas.py`. -/
structure DocumentUploadResponse where
  filename : String
  file_type : String
  total_chunks : Nat
  message : String
deriving DecidableEq, Repr

/-- `DocumentService._cleanup_old_session`'s effect on the registry: if a
session is active, the old collection is deleted best-effort (storage only,
no registry effect even on failure) and the session is cleared. -/
def cleanup_old_session (st : SessionState) : SessionState :=
  if st.is_active then (clear_session st).1 else st

/-- The extension reported by the `ValueError` branch of `process_upload`
(`temp_file_path.suffix.lstrip(".").lower()`): the temp file is created
with `Path(file.filename).suffix if file.filename else ".tmp"` as suffix,
and its random stem contains no dot. -/
def temp_file_extension (file : UploadFile) : String :=
  match file.filename with
  | none => "tmp"
  | some f => if f = "" then "tmp" else file_extension f

/-- `DocumentService.process_upload` as a transition on the session
registry.  Collaborator behaviour enters as data: `procResult` is the
document processor's outcome, `createCollectionOk` whether the vector
store's `create_collection` succeeds, `fresh`/`now` the generated
collection name and timestamp.  Returns the final registry state and the
response or classified error.  Mirrored order: validate → save temp (no
registry effect) → clear previous session → process document → page-limit
check → `create_session` → `create_collection`, clearing the just-created
session when collection creation fails.  Temp-file cleanup in `finally`
touches no registry state. -/
def process_upload (st : SessionState) (file : UploadFile)
    (settings : Settings) (procResult : Except ProcFailure ProcessedDoc)
    (createCollectionOk : Bool) (fresh : String) (now : Nat) :
    SessionState × Except UploadError DocumentUploadResponse :=
  match validate_file settings file with
  | some e => (st, .error e)
  | none =>
    let st1 := cleanup_old_session st
    match procResult with
    | .error .valueError =>
        (st1, .error (.unsupportedFileType (temp_file_extension file)
          settings.allowed_extensions))
    | .error (.processingFailure msg) =>
        (st1, .error (.processingError ("Failed to process document: " ++ msg)))
    | .ok doc =>
      let page_count := estimate_page_count doc.chunks
      if settings.max_page_limit < page_count then
        (st1, .error (.pageLimitExceeded page_count settings.max_page_limit))
      else
        let original_filename :=
          match file.filename with
          | none => doc.filename
          | some f => if f = "" then doc.filename else f
        let st2 := (create_session st1 original_filename page_count
          doc.total_chunks fresh now).1
        if createCollectionOk then
          (st2, .ok { filename := original_filename
                    , file_type := doc.file_type
                    , total_chunks := doc.total_chunks
                    , message := "Document uploaded and processed successfully" })
        else
          ((clear_session st2).1,
           .error (.processingError "Failed to create vector store collection"))

/-! ## Helper lemmas -/

/-- Token-only responses pass through `event_generator_loop` as token
events, without stopping the loop. -/
lemma event_generator_loop_tokens (ts : List String)
    (rs : List StreamingQueryResponse) :
    event_generator_loop
        ((ts.map fun t => ({ token := some t } : StreamingQueryResponse)) ++ rs)
      = (ts.map SSEEvent.token ++ (event_generator_loop rs).1,
         (event_generator_loop rs).2) := by
  induction ts with
  | nil => simp
  | cons t ts ih => simp [event_generator_loop, ih]

/-- A token-only response list passes through `event_generator_loop` whole,
as token events. -/
lemma event_generator_loop_tokens_nil (ts : List String) :
    event_generator_loop
        (ts.map fun t => ({ token := some t } : StreamingQueryResponse))
      = (ts.map SSEEvent.token, false) := by
  have h := event_generator_loop_tokens ts []
  simpa [event_generator_loop] using h

/-- On an inactive default-state registry, any query request produces the
single "no active session" error event. -/
lemma event_generator_default_session (svc : QueryService)
    (retrieve : Nat → Except String (List RetrievedChunk))
    (genTokens : List String) (genOutcome : GenOutcome) :
    event_generator
        (query_stream svc SessionState.default retrieve genTokens genOutcome)
      = [SSEEvent.error "No document loaded. Please upload a document first."] := by
  simp [query_stream, SessionState.default, event_generator,
    event_generator_loop, QueryException.message]

/-! ## Claim theorems -/

/-- C1: for a successful query (active session with a non-empty collection
name, retrieval returning `chunks`, generation completing after streaming
`genTokens`), the emitted event sequence is exactly the token events in
order, then one `Sources` event, then one `Done` event, with nothing after
`Done`. -/
theorem query_success_event_sequence
    (svc : QueryService) (session : SessionState) (c : String)
    (retrieve : Nat → Except String (List RetrievedChunk))
    (chunks : List RetrievedChunk) (genTokens : List String)
    (hactive : session.is_active = true)
    (hcoll : session.collection_name = some c) (hc : c ≠ "")
    (hret : retrieve svc._top_k = .ok chunks) :
    event_generator (query_stream svc session retrieve genTokens .completes)
      = genTokens.map SSEEvent.token ++
        [SSEEvent.sources (chunks_to_sources chunks), SSEEvent.done] := by
  simp only [query_stream, hactive, hcoll, hret]
  rw [if_neg (by simp), if_neg hc]
  simp [event_generator, event_generator_loop_tokens, event_generator_loop]

/-- Witness for C1 at a concrete input: one retrieved chunk and two
streamed tokens produce exactly token, token, sources, done. -/
theorem query_success_event_sequence_witness :
    event_generator
        (query_stream ⟨3⟩
          { is_active := true, filename := some "report.pdf", page_count := 3
          , chunk_count := 9, created_at := some 0
          , collection_name := some "session_abc" }
          (fun _ => .ok [⟨"The answer", 1, 0, 9/10, "report.pdf"⟩])
          ["The ", "answer."] .completes)
      = [SSEEvent.token "The ", SSEEvent.token "answer.",
         SSEEvent.sources [⟨"The answer", 1, 0, 9/10, "report.pdf"⟩],
         SSEEvent.done] := by
  rw [query_success_event_sequence ⟨3⟩ _ "session_abc" _
    [⟨"The answer", 1, 0, 9/10, "report.pdf"⟩] ["The ", "answer."]
    rfl rfl (by decide) rfl]
  rfl

/-- C2: a query made while no session is active (inactive registry or a
null collection name) yields exactly one `Error` event carrying the
`NoActiveSessionError` message, and no `Token` or `Sources` events — no
partial events precede the session check. -/
theorem query_no_session_single_error
    (svc : QueryService) (session : SessionState)
    (retrieve : Nat → Except String (List RetrievedChunk))
    (genTokens : List String) (genOutcome : GenOutcome)
    (h : session.is_active = false ∨ session.collection_name = none) :
    event_generator (query_stream svc session retrieve genTokens genOutcome)
      = [SSEEvent.error "No document loaded. Please upload a document first."] := by
  rcases h with h | h
  · simp [query_stream, h, event_generator, event_generator_loop,
      QueryException.message]
  · unfold query_stream
    rcases hb : session.is_active with _ | _
    · simp [event_generator, event_generator_loop, QueryException.message]
    · rw [h]
      simp [event_generator, event_generator_loop, QueryException.message]

/-- Witness for C2: a fresh default registry state gives the single error
event. -/
theorem query_no_session_single_error_witness :
    event_generator
        (query_stream ⟨3⟩ SessionState.default (fun _ => .ok []) [] .completes)
      = [SSEEvent.error "No document loaded. Please upload a document first."] :=
  query_no_session_single_error ⟨3⟩ SessionState.default (fun _ => .ok [])
    [] .completes (Or.inl rfl)

/-- C5: when the LLM collaborator fails after streaming `genTokens` (K
tokens), the event sequence is exactly those K token events followed by one
terminal `Error` event — no `Sources`, no `Done`, and the already-emitted
tokens are retained. -/
theorem query_generation_failure_events
    (svc : QueryService) (session : SessionState) (c : String)
    (retrieve : Nat → Except String (List RetrievedChunk))
    (chunks : List RetrievedChunk) (genTokens : List String) (K : Nat)
    (hactive : session.is_active = true)
    (hcoll : session.collection_name = some c) (hc : c ≠ "")
    (hret : retrieve svc._top_k = .ok chunks)
    (hK : genTokens.length = K) :
    event_generator (query_stream svc session retrieve genTokens .llmError)
      = genTokens.map SSEEvent.token ++
        [SSEEvent.error "Failed to generate response from LLM"] ∧
    (genTokens.map SSEEvent.token).length = K := by
  constructor
  · simp only [query_stream, hactive, hcoll, hret]
    rw [if_neg (by simp), if_neg hc]
    simp [event_generator, event_generator_loop_tokens_nil,
      QueryException.message]
  · simpa using hK

/-- Witness for C5: generation failing after two tokens yields those two
token events then the error event. -/
theorem query_generation_failure_events_witness :
    event_generator
        (query_stream ⟨3⟩
          { is_active := true, filename := some "report.pdf", page_count := 3
          , chunk_count := 9, created_at := some 0
          , collection_name := some "session_abc" }
          (fun _ => .ok []) ["The ", "answer"] .llmError)
      = [SSEEvent.token "The ", SSEEvent.token "answer",
         SSEEvent.error "Failed to generate response from LLM"] ∧
    ((["The ", "answer"] : List String).map SSEEvent.token).length = 2 :=
  query_generation_failure_events ⟨3⟩ _ "session_abc" _ [] ["The ", "answer"]
    2 rfl rfl (by decide) rfl rfl

/-- One registry transition preserves the activity/collection coupling. -/
lemma sessionStep_preserves_invariant (st : SessionState) (op : SessionOp)
    (h : st.is_active = true ↔ st.collection_name ≠ none) :
    (sessionStep st op).is_active = true ↔
      (sessionStep st op).collection_name ≠ none := by
  cases op with
  | create filename page_count chunk_count fresh now =>
      simp [sessionStep, create_session]
  | clear => simp [sessionStep, clear_session, SessionState.default]
  | read => exact h

/-- The coupling holds along any run of registry operations. -/
lemma sessionRun_invariant_aux :
    ∀ (ops : List SessionOp) (st : SessionState),
      (st.is_active = true ↔ st.collection_name ≠ none) →
      ((ops.foldl sessionStep st).is_active = true ↔
        (ops.foldl sessionStep st).collection_name ≠ none) := by
  intro ops
  induction ops with
  | nil => intro st h; exact h
  | cons op ops ih =>
      intro st h
      exact ih (sessionStep st op) (sessionStep_preserves_invariant st op h)

/-- C7: in every registry state reachable from the initial empty state by
any sequence of `create_session`, `clear_session` and read operations,
`is_active = true` holds exactly when the collection name is non-null. -/
theorem session_registry_active_iff_collection (ops : List SessionOp) :
    (sessionRun ops).is_active = true ↔
      (sessionRun ops).collection_name ≠ none :=
  sessionRun_invariant_aux ops SessionState.default
    (by simp [SessionState.default])

/-- C8: the three concrete values of the page-count estimator: page
metadata `{1,1,2,3,3,3}` gives 3; twelve chunks without page metadata give
4; an empty chunk list gives 1. -/
theorem estimate_page_count_concrete_values :
    estimate_page_count
        [⟨some 1⟩, ⟨some 1⟩, ⟨some 2⟩, ⟨some 3⟩, ⟨some 3⟩, ⟨some 3⟩] = 3 ∧
    estimate_page_count (List.replicate 12 ⟨none⟩) = 4 ∧
    estimate_page_count [] = 1 := by
  refine ⟨by decide, ?_, by decide⟩
  decide

/-- C4 counterexample: with observed page metadata `{1,1,2,3,3,3}` the
maximum page index is 3 and the estimator returns 3, not 3 + 1 = 4 as the
claim states; and twelve chunks whose only page metadata is 0 give the
chunk-count fallback 4, not 0 + 1 = 1. -/
theorem estimate_page_count_not_max_plus_one :
    estimate_page_count
        [⟨some 1⟩, ⟨some 1⟩, ⟨some 2⟩, ⟨some 3⟩, ⟨some 3⟩, ⟨some 3⟩] = 3 ∧
    maxPage [⟨some 1⟩, ⟨some 1⟩, ⟨some 2⟩, ⟨some 3⟩, ⟨some 3⟩, ⟨some 3⟩] = 3 ∧
    estimate_page_count
        [⟨some 1⟩, ⟨some 1⟩, ⟨some 2⟩, ⟨some 3⟩, ⟨some 3⟩, ⟨some 3⟩]
      ≠ maxPage [⟨some 1⟩, ⟨some 1⟩, ⟨some 2⟩, ⟨some 3⟩, ⟨some 3⟩, ⟨some 3⟩] + 1 ∧
    estimate_page_count (List.replicate 12 ⟨some 0⟩) = 4 ∧
    maxPage (List.replicate 12 ⟨some 0⟩) + 1 = 1 := by
  refine ⟨by decide, by decide, by decide, ?_, by decide⟩
  decide

/-- C4 (amended): for a non-empty chunk list, the estimated page count
equals the maximum page value observed in the chunk metadata — without
adding 1 — whenever that maximum is positive; when no chunk carries a
positive page value (in particular when no page metadata exists at all),
it equals `max 1 (chunk_count / 3)`. -/
theorem estimate_page_count_max_or_fallback (chunks : List Chunk)
    (h : chunks ≠ []) :
    (0 < maxPage chunks → estimate_page_count chunks = maxPage chunks) ∧
    (maxPage chunks = 0 →
      estimate_page_count chunks = max 1 (chunks.length / 3)) := by
  constructor
  · intro hpos
    unfold estimate_page_count
    rw [if_neg h, if_pos hpos]
  · intro hzero
    unfold estimate_page_count
    rw [if_neg h, if_neg (by omega)]

/-- Witness for the amended C4: pages `{1,1,2,3,3,3}` give 3 (the positive
maximum), and three chunks without metadata give `max 1 (3 / 3) = 1`. -/
theorem estimate_page_count_max_or_fallback_witness :
    estimate_page_count
        [⟨some 1⟩, ⟨some 1⟩, ⟨some 2⟩, ⟨some 3⟩, ⟨some 3⟩, ⟨some 3⟩]
      = maxPage [⟨some 1⟩, ⟨some 1⟩, ⟨some 2⟩, ⟨some 3⟩, ⟨some 3⟩, ⟨some 3⟩] ∧
    estimate_page_count [⟨none⟩, ⟨none⟩, ⟨none⟩]
      = max 1 (([⟨none⟩, ⟨none⟩, ⟨none⟩] : List Chunk).length / 3) :=
  ⟨(estimate_page_count_max_or_fallback _ (by decide)).1 (by decide),
   (estimate_page_count_max_or_fallback _ (by decide)).2 (by decide)⟩

/-- The extension block either passes or raises `UnsupportedFileTypeError`;
it never raises anything else. -/
lemma extension_check_cases (settings : Settings) (file : UploadFile) :
    extension_check settings file = none ∨
    ∃ ext, extension_check settings file
      = some (.unsupportedFileType ext settings.allowed_extensions) := by
  unfold extension_check
  cases file.filename with
  | none => exact Or.inl rfl
  | some f =>
      dsimp only
      split
      · exact Or.inl rfl
      · split
        · exact Or.inl rfl
        · exact Or.inr ⟨file_extension f, rfl⟩

/-- The size block either passes or raises `FileTooLargeError`; it never
raises anything else. -/
lemma size_check_cases (settings : Settings) (file : UploadFile) :
    size_check settings file = none ∨
    ∃ size, size_check settings file
      = some (.fileTooLarge size settings.max_file_size_mb) := by
  unfold size_check
  cases file.size with
  | none => exact Or.inl rfl
  | some size =>
      by_cases hbig : size ≠ 0 ∧ settings.max_file_size_mb * 1048576 < size
      · exact Or.inr ⟨size, by simp [hbig]⟩
      · simp [hbig]

/-- C6: when Chunk Store collection creation fails during `process_upload`
(validation passed, the document processed, the page limit was met), the
just-created session is cleared — the final registry state is the default
inactive one with a null collection name — and a processing-classified
error is surfaced. -/
theorem collection_creation_failure_rolls_back
    (st : SessionState) (file : UploadFile) (settings : Settings)
    (doc : ProcessedDoc) (fresh : String) (now : Nat)
    (hval : validate_file settings file = none)
    (hpage : estimate_page_count doc.chunks ≤ settings.max_page_limit) :
    (process_upload st file settings (.ok doc) false fresh now).1
      = SessionState.default ∧
    (process_upload st file settings (.ok doc) false fresh now).1.is_active
      = false ∧
    (process_upload st file settings (.ok doc) false fresh now).1.collection_name
      = none ∧
    (process_upload st file settings (.ok doc) false fresh now).2
      = .error (.processingError "Failed to create vector store collection") := by
  have hlt : ¬ settings.max_page_limit < estimate_page_count doc.chunks := by
    omega
  simp [process_upload, hval, hlt, clear_session, SessionState.default]

/-- Witness for C6: a concrete well-formed upload whose collection creation
fails ends with the default inactive registry state and the processing
error. -/
theorem collection_creation_failure_rolls_back_witness :
    (process_upload SessionState.default ⟨some "report.pdf", some 1024⟩
        ⟨50, 3, ["pdf", "txt", "docx"], 20⟩
        (.ok ⟨"report.pdf", "pdf", 9, [⟨some 1⟩, ⟨some 2⟩, ⟨some 3⟩]⟩)
        false "session_abc" 0).1 = SessionState.default ∧
    (process_upload SessionState.default ⟨some "report.pdf", some 1024⟩
        ⟨50, 3, ["pdf", "txt", "docx"], 20⟩
        (.ok ⟨"report.pdf", "pdf", 9, [⟨some 1⟩, ⟨some 2⟩, ⟨some 3⟩]⟩)
        false "session_abc" 0).1.is_active = false ∧
    (process_upload SessionState.default ⟨some "report.pdf", some 1024⟩
        ⟨50, 3, ["pdf", "txt", "docx"], 20⟩
        (.ok ⟨"report.pdf", "pdf", 9, [⟨some 1⟩, ⟨some 2⟩, ⟨some 3⟩]⟩)
        false "session_abc" 0).1.collection_name = none ∧
    (process_upload SessionState.default ⟨some "report.pdf", some 1024⟩
        ⟨50, 3, ["pdf", "txt", "docx"], 20⟩
        (.ok ⟨"report.pdf", "pdf", 9, [⟨some 1⟩, ⟨some 2⟩, ⟨some 3⟩]⟩)
        false "session_abc" 0).2
      = .error (.processingError "Failed to create vector store collection") :=
  collection_creation_failure_rolls_back SessionState.default
    ⟨some "report.pdf", some 1024⟩ ⟨50, 3, ["pdf", "txt", "docx"], 20⟩
    ⟨"report.pdf", "pdf", 9, [⟨some 1⟩, ⟨some 2⟩, ⟨some 3⟩]⟩ "session_abc" 0
    (by decide) (by decide)

/-- C9: when an upload over an active session fails at any point after the
previous session was cleared — document processing failure, page-limit
rejection, or collection-creation failure — the registry ends in the
default inactive state (the previous session is not restored and no new
session is active), and any subsequent query yields only the "no active
session" error event. -/
theorem failed_upload_leaves_registry_inactive
    (st : SessionState) (file : UploadFile) (settings : Settings)
    (procResult : Except ProcFailure ProcessedDoc)
    (createCollectionOk : Bool) (fresh : String) (now : Nat)
    (hactive : st.is_active = true)
    (hval : validate_file settings file = none)
    (hfail : (∃ pf, procResult = .error pf) ∨
      (∃ doc, procResult = .ok doc ∧
        settings.max_page_limit < estimate_page_count doc.chunks) ∨
      createCollectionOk = false) :
    (process_upload st file settings procResult createCollectionOk fresh now).1
      = SessionState.default ∧
    ∀ (svc : QueryService)
      (retrieve : Nat → Except String (List RetrievedChunk))
      (genTokens : List String) (genOutcome : GenOutcome),
      event_generator (query_stream svc
          (process_upload st file settings procResult createCollectionOk
            fresh now).1
          retrieve genTokens genOutcome)
        = [SSEEvent.error "No document loaded. Please upload a document first."] := by
  have hclean : cleanup_old_session st = SessionState.default := by
    simp [cleanup_old_session, hactive, clear_session]
  have hdef :
      (process_upload st file settings procResult createCollectionOk
        fresh now).1 = SessionState.default := by
    rcases procResult with pf | doc
    · cases pf with
      | valueError => simp [process_upload, hval, hclean]
      | processingFailure msg => simp [process_upload, hval, hclean]
    · by_cases hp : settings.max_page_limit < estimate_page_count doc.chunks
      · simp [process_upload, hval, hclean, hp]
      · have hcf : createCollectionOk = false := by
          rcases hfail with ⟨pf, hpf⟩ | ⟨doc', hdoc', hp'⟩ | hcf
          · exact absurd hpf (by simp)
          · rw [Except.ok.injEq] at hdoc'
            exact absurd (hdoc' ▸ hp') hp
          · exact hcf
        simp [process_upload, hval, hclean, hp, hcf, clear_session]
  refine ⟨hdef, ?_⟩
  intro svc retrieve genTokens genOutcome
  rw [hdef]
  exact event_generator_default_session svc retrieve genTokens genOutcome

/-- Witness for C9: an active session, a valid file, and a processing
failure leave the registry in the default state and the document
unqueryable. -/
theorem failed_upload_leaves_registry_inactive_witness :
    (process_upload
        { is_active := true, filename := some "old.pdf", page_count := 2
        , chunk_count := 5, created_at := some 0
        , collection_name := some "session_old" }
        ⟨some "report.pdf", some 1024⟩ ⟨50, 3, ["pdf", "txt", "docx"], 20⟩
        (.error (.processingFailure "corrupt file")) true "session_new" 1).1
      = SessionState.default ∧
    ∀ (svc : QueryService)
      (retrieve : Nat → Except String (List RetrievedChunk))
      (genTokens : List String) (genOutcome : GenOutcome),
      event_generator (query_stream svc
          (process_upload
            { is_active := true, filename := some "old.pdf", page_count := 2
            , chunk_count := 5, created_at := some 0
            , collection_name := some "session_old" }
            ⟨some "report.pdf", some 1024⟩
            ⟨50, 3, ["pdf", "txt", "docx"], 20⟩
            (.error (.processingFailure "corrupt file")) true "session_new"
            1).1
          retrieve genTokens genOutcome)
        = [SSEEvent.error "No document loaded. Please upload a document first."] :=
  failed_upload_leaves_registry_inactive _ _ _ _ _ _ _ rfl (by decide)
    (Or.inl ⟨.processingFailure "corrupt file", rfl⟩)

/-- C10: in `_validate_file`, the extension check runs only when the upload
carries a filename and the size check only when it reports a truthy size:
a missing filename can never produce an `UnsupportedFileTypeError`, a
missing or zero size can never produce a `FileTooLargeError`, and an upload
with neither passes validation entirely, proceeding to temp-file save and
document processing (whose collaborator outcome then decides the result). -/
theorem validate_file_truthiness_guards
    (settings : Settings) (file : UploadFile) :
    (file.filename = none →
      ∀ e a, validate_file settings file ≠ some (.unsupportedFileType e a)) ∧
    ((file.size = none ∨ file.size = some 0) →
      ∀ s m, validate_file settings file ≠ some (.fileTooLarge s m)) ∧
    (file.filename = none → (file.size = none ∨ file.size = some 0) →
      validate_file settings file = none ∧
      ∀ (st : SessionState) (msg fresh : String) (now : Nat),
        (process_upload st file settings
            (.error (.processingFailure msg)) true fresh now).2
          = .error (.processingError ("Failed to process document: " ++ msg))) := by
  have hext_none : file.filename = none →
      extension_check settings file = none := by
    intro hfn
    unfold extension_check
    rw [hfn]
  have hsize_none : (file.size = none ∨ file.size = some 0) →
      size_check settings file = none := by
    rintro (h0 | h0) <;> unfold size_check <;> rw [h0]
    simp
  refine ⟨?_, ?_, ?_⟩
  · intro hfn e a
    unfold validate_file
    rw [hext_none hfn]
    rcases size_check_cases settings file with h | ⟨size, h⟩ <;> simp [h]
  · intro hsz s m
    unfold validate_file
    rcases extension_check_cases settings file with h | ⟨ext, h⟩ <;> rw [h]
    · rw [hsize_none hsz]
      simp
    · simp
  · intro hfn hsz
    have hvalnone : validate_file settings file = none := by
      unfold validate_file
      rw [hext_none hfn, hsize_none hsz]
    refine ⟨hvalnone, ?_⟩
    intro st msg fresh now
    simp [process_upload, hvalnone]

/-- Witness for C10: an upload with no filename and no reported size passes
validation and reaches document processing. -/
theorem validate_file_truthiness_guards_witness :
    validate_file ⟨50, 3, ["pdf", "txt", "docx"], 20⟩ ⟨none, none⟩ = none ∧
    (process_upload SessionState.default ⟨none, none⟩
        ⟨50, 3, ["pdf", "txt", "docx"], 20⟩
        (.error (.processingFailure "bad bytes")) true "session_x" 0).2
      = .error (.processingError ("Failed to process document: " ++ "bad bytes")) :=
  (validate_file_truthiness_guards ⟨50, 3, ["pdf", "txt", "docx"], 20⟩
      ⟨none, none⟩).2.2 rfl (Or.inl rfl) |>.imp id
    (fun h => h SessionState.default "bad bytes" "session_x" 0)

/-- A stub retrieval collaborator that returns exactly the number of chunks
it is asked for. -/
def countingRetrieve (k : Nat) : Except String (List RetrievedChunk) :=
  .ok ((List.range k).map fun i =>
    { content := "", page_number := 1, chunk_index := i
    , relevance_score := 0, source := "doc.txt" })

/-- C3 (code evaluation at the failing input): a request carrying the
in-bounds `top_k` override 5, served with configured default
`top_k_chunks = 3`, still retrieves 3 chunks — the route builds the service
from `settings.top_k_chunks` and never forwards `request.top_k`, so the
`Sources` payload has 3 entries, not 5. -/
theorem top_k_override_ignored :
    ({ query := "What is X?", top_k := some 5 } : QueryRequest).top_k
      = some 5 ∧
    QueryRequest.valid { query := "What is X?", top_k := some 5 } ∧
    retrieval_top_k ⟨50, 3, ["pdf", "txt", "docx"], 20⟩
        { query := "What is X?", top_k := some 5 } = 3 ∧
    query_document ⟨50, 3, ["pdf", "txt", "docx"], 20⟩
        { query := "What is X?", top_k := some 5 }
        { is_active := true, filename := some "report.pdf", page_count := 3
        , chunk_count := 9, created_at := some 0
        , collection_name := some "session_abc" }
        countingRetrieve [] .completes
      = [SSEEvent.sources
           (chunks_to_sources ((List.range 3).map fun i =>
             { content := "", page_number := 1, chunk_index := i
             , relevance_score := 0, source := "doc.txt" })),
         SSEEvent.done] ∧
    (chunks_to_sources ((List.range 3).map fun i =>
      ({ content := "", page_number := 1, chunk_index := i
       , relevance_score := 0, source := "doc.txt" } : RetrievedChunk))).length
      = 3 ∧ (3 : Nat) ≠ 5 := by
  refine ⟨rfl, ⟨by decide, ?_⟩, rfl, by decide, by decide, by decide⟩
  intro t ht
  rw [Option.some.injEq] at ht
  omega

end DocumentChat
